import Mathlib

/-!
Verification of the `pyspark-weather-rdd` driver against its specification.

The driver (`src/pyspark-weather-rdd/driver.py`) joins weather observations
with station metadata, groups by (country, year) and folds each group into a
min/max accumulator.  Floating point measurements are modelled by `ℚ`: the
accumulator algebra only compares and selects values, so rationals are a
faithful model of the machine floats on these operations.  The `weather`
module (record types and the accumulator operations `reduce_wmm` /
`combine_wmm`) is not part of the staged sources, so those definitions are
modelled from the specification; everything taken from `driver.py` follows
that file line by line.
-/

namespace SparkWeather

/-- Modelled from the spec: `StationRecord` (§3) — identity
`(networkId, stationId)` (the `usaf`/`wban` fields the driver reads) and the
`country` attribute.  The `weather` module that defines `StationData` is not
in the staged sources. -/
structure StationData where
  usaf : String
  wban : String
  country : String
deriving DecidableEq, Repr

/-- Modelled from the spec: `WeatherRecord` (§3) — identity
`(networkId, stationId)`, the `date : string(8)` attribute and the two
optional measurements, `none` standing for the sentinel "missing" value.
The `weather` module that defines `WeatherData` is not in the staged
sources. -/
structure WeatherData where
  usaf : String
  wban : String
  date : String
  temperatureCelsius : Option ℚ
  windSpeedMs : Option ℚ
deriving DecidableEq, Repr

/-- Modelled from the spec: `MinMaxAccumulator` (§3) — four optional extrema.
The field names are the ones `driver.py`'s `format_result` reads
(`minTemperature`, `maxTemperature`, `minWindSpeed`, `maxWindSpeed`). -/
structure WeatherMinMax where
  minTemperature : Option ℚ
  maxTemperature : Option ℚ
  minWindSpeed : Option ℚ
  maxWindSpeed : Option ℚ
deriving DecidableEq, Repr

/-- Modelled from the spec: the identity element of the accumulator monoid,
all four fields `none` (§3); this is the zero value `WeatherMinMax()` that
`driver.py` passes to `aggregateByKey`. -/
def WeatherMinMax.empty : WeatherMinMax :=
  ⟨none, none, none, none⟩

/-- Modelled from the spec: one axis of `absorb` on the min side (§4.5) —
a missing observation leaves the bound unchanged, a present one is
`none`-coalesced into the current min. -/
def absorbMin (m : Option ℚ) (v : Option ℚ) : Option ℚ :=
  match v with
  | none => m
  | some x =>
    match m with
    | none => some x
    | some y => some (min y x)

/-- Modelled from the spec: one axis of `absorb` on the max side (§4.5). -/
def absorbMax (m : Option ℚ) (v : Option ℚ) : Option ℚ :=
  match v with
  | none => m
  | some x =>
    match m with
    | none => some x
    | some y => some (max y x)

/-- Modelled from the spec: `min-ignoring-none` used by `merge` (§4.5);
`none` only when both sides are `none`. -/
def omin (a b : Option ℚ) : Option ℚ :=
  match a, b with
  | none, b => b
  | some x, none => some x
  | some x, some y => some (min x y)

/-- Modelled from the spec: `max-ignoring-none` used by `merge` (§4.5). -/
def omax (a b : Option ℚ) : Option ℚ :=
  match a, b with
  | none, b => b
  | some x, none => some x
  | some x, some y => some (max x y)

/-- Modelled from the spec: `absorb(acc, observation)` (§4.5), the
sequential-fold operation `reduce_wmm` that `driver.py` imports from the
`weather` module (not in the staged sources): each axis is handled
independently and left unchanged when the observation's value is missing. -/
def reduce_wmm (wmm : WeatherMinMax) (data : WeatherData) : WeatherMinMax :=
  { minTemperature := absorbMin wmm.minTemperature data.temperatureCelsius
    maxTemperature := absorbMax wmm.maxTemperature data.temperatureCelsius
    minWindSpeed := absorbMin wmm.minWindSpeed data.windSpeedMs
    maxWindSpeed := absorbMax wmm.maxWindSpeed data.windSpeedMs }

/-- Modelled from the spec: `merge(a, b)` (§4.5), the cross-partition
combiner `combine_wmm` that `driver.py` imports from the `weather` module
(not in the staged sources). -/
def combine_wmm (a b : WeatherMinMax) : WeatherMinMax :=
  { minTemperature := omin a.minTemperature b.minTemperature
    maxTemperature := omax a.maxTemperature b.maxTemperature
    minWindSpeed := omin a.minWindSpeed b.minWindSpeed
    maxWindSpeed := omax a.maxWindSpeed b.maxWindSpeed }

/-! Axis-level algebra of `omin`/`omax`. -/

theorem omin_assoc (a b c : Option ℚ) : omin (omin a b) c = omin a (omin b c) := by
  cases a <;> cases b <;> cases c <;> simp [omin, min_assoc]

theorem omin_comm (a b : Option ℚ) : omin a b = omin b a := by
  cases a <;> cases b <;> simp [omin, min_comm]

theorem omin_none_right (a : Option ℚ) : omin a none = a := by
  cases a <;> rfl

theorem omin_none_left (a : Option ℚ) : omin none a = a := rfl

theorem omax_assoc (a b c : Option ℚ) : omax (omax a b) c = omax a (omax b c) := by
  cases a <;> cases b <;> cases c <;> simp [omax, max_assoc]

theorem omax_comm (a b : Option ℚ) : omax a b = omax b a := by
  cases a <;> cases b <;> simp [omax, max_comm]

theorem omax_none_right (a : Option ℚ) : omax a none = a := by
  cases a <;> rfl

theorem omax_none_left (a : Option ℚ) : omax none a = a := rfl

/-- `absorbMin` is merging with the singleton built from the observation. -/
theorem absorbMin_eq_omin (m v : Option ℚ) : absorbMin m v = omin m (absorbMin none v) := by
  cases m <;> cases v <;> simp [absorbMin, omin, min_comm]

theorem absorbMax_eq_omax (m v : Option ℚ) : absorbMax m v = omax m (absorbMax none v) := by
  cases m <;> cases v <;> simp [absorbMax, omax, max_comm]

/-! Accumulator-level algebra, shared by several claims below. -/

theorem combine_wmm_assoc (a b c : WeatherMinMax) :
    combine_wmm (combine_wmm a b) c = combine_wmm a (combine_wmm b c) := by
  simp [combine_wmm, omin_assoc, omax_assoc]

theorem combine_wmm_comm (a b : WeatherMinMax) :
    combine_wmm a b = combine_wmm b a := by
  simp only [combine_wmm]
  rw [omin_comm, omax_comm, omin_comm a.minWindSpeed, omax_comm a.maxWindSpeed]

theorem combine_wmm_empty_right (a : WeatherMinMax) :
    combine_wmm a WeatherMinMax.empty = a := by
  simp [combine_wmm, WeatherMinMax.empty, omin_none_right, omax_none_right]

theorem combine_wmm_empty_left (a : WeatherMinMax) :
    combine_wmm WeatherMinMax.empty a = a := by
  simp [combine_wmm, WeatherMinMax.empty, omin_none_left, omax_none_left]

/-- Absorbing one observation is merging in the singleton accumulator. -/
theorem reduce_eq_combine_single (a : WeatherMinMax) (obs : WeatherData) :
    reduce_wmm a obs = combine_wmm a (reduce_wmm WeatherMinMax.empty obs) := by
  simp only [reduce_wmm, combine_wmm, WeatherMinMax.empty]
  rw [absorbMin_eq_omin a.minTemperature, absorbMax_eq_omax a.maxTemperature,
    absorbMin_eq_omin a.minWindSpeed, absorbMax_eq_omax a.maxWindSpeed]

/-! The driver pipeline, following `driver.py`. -/

/-- The key `driver.py` line 91 builds for a weather record:
`weather.keyBy(lambda data: data.usaf + data.wban)`. -/
def weatherKey (data : WeatherData) : String :=
  data.usaf ++ data.wban

/-- The key `driver.py` line 90 builds for a station record:
`stations.keyBy(lambda data: data.usaf + data.wban)`. -/
def stationKey (data : StationData) : String :=
  data.usaf ++ data.wban

/-- Modelled from the spec: the execution engine's equi-join (§4.3, §6)
applied to the two keyed collections of `driver.py` lines 90–97.  It yields
the tuples `(usaf_wban, (weather, station))` for exactly the pairs whose
keys coincide; an unmatched record of either side contributes nothing. -/
def joined_weather (weather : List WeatherData) (stations : List StationData) :
    List (String × (WeatherData × StationData)) :=
  weather.flatMap fun w =>
    (stations.filter fun s => decide (stationKey s = weatherKey w)).map fun s =>
      (weatherKey w, (w, s))

/-- Python's slice `s[0:n]`: the first `n` characters, or the whole string
when it is shorter than `n`; slicing never raises. -/
def pySlice (s : String) (n : Nat) : String :=
  String.mk (s.data.take n)

/-- `driver.py` lines 100–101: the group-key extractor
`((data[1][1].country, data[1][0].date[0:4]), data[1][0])`. -/
def extract_country_year_weather (data : String × (WeatherData × StationData)) :
    (String × String) × WeatherData :=
  ((data.2.2.country, pySlice data.2.1.date 4), data.2.1)

/-- Modelled from the spec: the engine's `aggregateByKey` (§4.6, §6) run on
one partition — group the pairs by key and fold each group's values with
`reduce_wmm` from the all-`none` zero value, as `driver.py` line 109 does.
Partition-parallel runs are related to this single fold by the partition
invariance theorem below. -/
def aggregate_by_key (pairs : List ((String × String) × WeatherData)) :
    List ((String × String) × WeatherMinMax) :=
  (pairs.map Prod.fst).dedup.map fun k =>
    (k, ((pairs.filter fun p => decide (p.1 = k)).map Prod.snd).foldl
          reduce_wmm WeatherMinMax.empty)

/-- Modelled from the spec: Python's `"%f"` conversion on a value that is an
exact multiple of `10 ^ (-6)` — fixed-point with six digits after the
decimal point, as in `line = "%s,%s,%f,%f,%f,%f" % ...` of `driver.py`.
The scaled numerator `q.num * (1000000 / q.den)` equals `q * 1000000` for
every such value (all values this development formats have denominator 1). -/
def pyFormatF (q : ℚ) : String :=
  let n : Int := q.num * ((1000000 : Int) / (q.den : Int))
  let m : Nat := n.natAbs
  let frac : String := toString (m % 1000000)
  (if n < 0 then "-" else "") ++ toString (m / 1000000) ++ "." ++
    String.mk (List.replicate (6 - frac.length) '0') ++ frac

/-- `driver.py` lines 112–121: `format_result`.  Python's `v.minTemperature
or 0.0` yields `0.0` when the field is `None` (and `0.0` again when it is
`0.0`, the same number), which `Option.getD 0` models. -/
def format_result (row : (String × String) × WeatherMinMax) : String :=
  let country := row.1.1
  let year := row.1.2
  let minT := row.2.minTemperature.getD 0
  let maxT := row.2.maxTemperature.getD 0
  let minW := row.2.minWindSpeed.getD 0
  let maxW := row.2.maxWindSpeed.getD 0
  country ++ "," ++ year ++ "," ++ pyFormatF minT ++ "," ++ pyFormatF maxT ++
    "," ++ pyFormatF minW ++ "," ++ pyFormatF maxW

/-- The whole record-level pipeline of `main` (`driver.py` lines 90–126):
join, group-key extraction, per-key aggregation, formatting. -/
def run_pipeline (stations : List StationData) (weather : List WeatherData) :
    List String :=
  (aggregate_by_key ((joined_weather weather stations).map
      extract_country_year_weather)).map format_result

/-! Output-spec validation (claim C7). -/

/-- `driver.py` line 50: the one configuration entry `create_context` sets,
`conf.set("spark.hadoop.validateOutputSpecs", "false")`. -/
def driver_conf : List (String × String) :=
  [("spark.hadoop.validateOutputSpecs", "false")]

/-- Modelled from the spec: whether the engine checks that the output
location does not pre-exist before writing (§6: "output location must not
pre-exist").  Hadoop's output-spec validation is on unless the configuration
sets `spark.hadoop.validateOutputSpecs` to `"false"`. -/
def validate_output_enabled (conf : List (String × String)) : Bool :=
  match conf.lookup "spark.hadoop.validateOutputSpecs" with
  | some "false" => false
  | _ => true

/-- Outcome of `saveAsTextFile` with respect to a pre-existing output
location. -/
inductive SaveOutcome where
  | written
  | failedOutputExists
deriving DecidableEq, Repr

/-- Modelled from the spec: `saveAsTextFile` (`driver.py` line 126) under the
engine contract — it refuses a pre-existing output location only when
output-spec validation is enabled; otherwise it overwrites and reports
success. -/
def save_as_text_file (conf : List (String × String)) (outputExists : Bool) :
    SaveOutcome :=
  if validate_output_enabled conf && outputExists then
    SaveOutcome.failedOutputExists
  else
    SaveOutcome.written

/-! Concrete records for the spec's end-to-end scenario (§8) and for the
counterexamples below. -/

/-- The scenario station: network `USAF001`, station `WBAN01`, country `US`. -/
def stUS : StationData :=
  { usaf := "USAF001", wban := "WBAN01", country := "US" }

/-- Scenario observation for `20230101`: 5.0 °C, wind 3.0 m/s. -/
def wObs1 : WeatherData :=
  { usaf := "USAF001", wban := "WBAN01", date := "20230101"
    temperatureCelsius := some 5, windSpeedMs := some 3 }

/-- Scenario observation for `20230215`: −2.0 °C, wind missing. -/
def wObs2 : WeatherData :=
  { usaf := "USAF001", wban := "WBAN01", date := "20230215"
    temperatureCelsius := some (-2), windSpeedMs := none }

/-! Folding observations: the sequential fold is a homomorphic image of the
merge monoid, which is what makes partitioned aggregation well defined. -/

/-- Folding from an arbitrary accumulator is merging into a fold from the
identity. -/
theorem foldl_reduce_eq_combine (a : WeatherMinMax) (l : List WeatherData) :
    l.foldl reduce_wmm a = combine_wmm a (l.foldl reduce_wmm WeatherMinMax.empty) := by
  induction l generalizing a with
  | nil => simp [combine_wmm_empty_right]
  | cons x xs ih =>
    simp only [List.foldl_cons]
    rw [ih (reduce_wmm a x), ih (reduce_wmm WeatherMinMax.empty x),
      reduce_eq_combine_single a x, combine_wmm_assoc]

/-- The fold of a concatenation merges the folds of the halves. -/
theorem foldl_reduce_append (l₁ l₂ : List WeatherData) :
    (l₁ ++ l₂).foldl reduce_wmm WeatherMinMax.empty =
      combine_wmm (l₁.foldl reduce_wmm WeatherMinMax.empty)
        (l₂.foldl reduce_wmm WeatherMinMax.empty) := by
  rw [List.foldl_append, foldl_reduce_eq_combine]

/-- Two absorptions commute, so the fold does not depend on the order of the
observations. -/
theorem reduce_wmm_right_comm (a : WeatherMinMax) (o₁ o₂ : WeatherData) :
    reduce_wmm (reduce_wmm a o₁) o₂ = reduce_wmm (reduce_wmm a o₂) o₁ := by
  rw [reduce_eq_combine_single (reduce_wmm a o₁) o₂, reduce_eq_combine_single a o₁,
    reduce_eq_combine_single (reduce_wmm a o₂) o₁, reduce_eq_combine_single a o₂,
    combine_wmm_assoc, combine_wmm_assoc,
    combine_wmm_comm (reduce_wmm WeatherMinMax.empty o₁)
      (reduce_wmm WeatherMinMax.empty o₂)]

instance : RightCommutative reduce_wmm :=
  ⟨reduce_wmm_right_comm⟩

/-- Permuting the observations does not change the fold. -/
theorem foldl_reduce_perm {l₁ l₂ : List WeatherData} (p : l₁.Perm l₂)
    (a : WeatherMinMax) : l₁.foldl reduce_wmm a = l₂.foldl reduce_wmm a :=
  p.foldl_eq a

/-- Merging from an arbitrary accumulator is merging into a merge-fold from
the identity. -/
theorem foldl_combine_eq_combine (a : WeatherMinMax) (l : List WeatherMinMax) :
    l.foldl combine_wmm a = combine_wmm a (l.foldl combine_wmm WeatherMinMax.empty) := by
  induction l generalizing a with
  | nil => simp [combine_wmm_empty_right]
  | cons x xs ih =>
    simp only [List.foldl_cons]
    rw [ih (combine_wmm a x), ih (combine_wmm WeatherMinMax.empty x),
      combine_wmm_empty_left, combine_wmm_assoc]

/-- Merging the per-partition folds equals folding the concatenation of the
partitions. -/
theorem foldl_combine_parts (ps : List (List WeatherData)) :
    (ps.map fun p => p.foldl reduce_wmm WeatherMinMax.empty).foldl combine_wmm
        WeatherMinMax.empty =
      ps.flatten.foldl reduce_wmm WeatherMinMax.empty := by
  induction ps with
  | nil => rfl
  | cons p ps ih =>
    simp only [List.map_cons, List.foldl_cons, List.flatten_cons]
    rw [foldl_combine_eq_combine, combine_wmm_empty_left, ih, foldl_reduce_append]

/-- C1: `merge` (`combine_wmm`) is associative and commutative, and the
all-`none` accumulator is its two-sided identity — the accumulators form a
commutative monoid. -/
theorem merge_comm_monoid (a b c : WeatherMinMax) :
    combine_wmm (combine_wmm a b) c = combine_wmm a (combine_wmm b c) ∧
    combine_wmm a b = combine_wmm b a ∧
    combine_wmm a WeatherMinMax.empty = a ∧
    combine_wmm WeatherMinMax.empty a = a :=
  ⟨combine_wmm_assoc a b c, combine_wmm_comm a b,
    combine_wmm_empty_right a, combine_wmm_empty_left a⟩

/-- C2: absorbing one observation (`reduce_wmm`) equals merging in the
singleton accumulator obtained by absorbing it into the identity. -/
theorem absorb_eq_merge_singleton (a : WeatherMinMax) (obs : WeatherData) :
    reduce_wmm a obs = combine_wmm a (reduce_wmm WeatherMinMax.empty obs) :=
  reduce_eq_combine_single a obs

/-- C3: partition invariance — for every partitioning of the observation
multiset (a list of parts whose concatenation is a permutation of the whole),
folding each part independently from the identity and then merging the
partial accumulators yields exactly the one-pass fold of the whole multiset,
whatever the partition count and order. -/
theorem partition_invariance (parts : List (List WeatherData))
    (obs : List WeatherData) (h : parts.flatten.Perm obs) :
    (parts.map fun p => p.foldl reduce_wmm WeatherMinMax.empty).foldl combine_wmm
        WeatherMinMax.empty =
      obs.foldl reduce_wmm WeatherMinMax.empty := by
  rw [foldl_combine_parts, foldl_reduce_perm h]

/-- The partition-invariance theorem applied to the concrete two-part
partition of the scenario observations. -/
theorem partition_invariance_witness :
    ([[wObs1], [wObs2]].map fun p => p.foldl reduce_wmm WeatherMinMax.empty).foldl
        combine_wmm WeatherMinMax.empty =
      [wObs1, wObs2].foldl reduce_wmm WeatherMinMax.empty :=
  partition_invariance [[wObs1], [wObs2]] [wObs1, wObs2] (List.Perm.refl _)

/-! Reachable accumulators and their invariant (claim C9). -/

/-- `ReachedFrom acc s`: `acc` is built from the identity by some sequence of
`absorb` and `merge` operations whose absorbed observations are exactly the
list `s`. -/
inductive ReachedFrom : WeatherMinMax → List WeatherData → Prop where
  | base : ReachedFrom WeatherMinMax.empty []
  | absorb {a : WeatherMinMax} {s : List WeatherData} {o : WeatherData} :
      ReachedFrom a s → ReachedFrom (reduce_wmm a o) (o :: s)
  | merge {a b : WeatherMinMax} {s t : List WeatherData} :
      ReachedFrom a s → ReachedFrom b t → ReachedFrom (combine_wmm a b) (s ++ t)

theorem absorbMin_isSome_eq_absorbMax (m M v : Option ℚ)
    (h : m.isSome = M.isSome) :
    (absorbMin m v).isSome = (absorbMax M v).isSome := by
  cases v <;> cases m <;> cases M <;> simp_all [absorbMin, absorbMax]

theorem omin_isSome (a b : Option ℚ) :
    (omin a b).isSome = (a.isSome || b.isSome) := by
  cases a <;> cases b <;> simp [omin]

theorem omax_isSome (a b : Option ℚ) :
    (omax a b).isSome = (a.isSome || b.isSome) := by
  cases a <;> cases b <;> simp [omax]

theorem absorbMin_le_absorbMax (m M v : Option ℚ)
    (h : ∀ x y, m = some x → M = some y → x ≤ y) :
    ∀ x y, absorbMin m v = some x → absorbMax M v = some y → x ≤ y := by
  intro x y hx hy
  cases v with
  | none => exact h x y hx hy
  | some w =>
    cases m with
    | none =>
      cases M with
      | none =>
        simp only [absorbMin, absorbMax, Option.some.injEq] at hx hy
        exact hx ▸ hy ▸ le_refl w
      | some b =>
        simp only [absorbMin, absorbMax, Option.some.injEq] at hx hy
        exact hx ▸ hy ▸ le_max_right b w
    | some a =>
      cases M with
      | none =>
        simp only [absorbMin, absorbMax, Option.some.injEq] at hx hy
        exact hx ▸ hy ▸ min_le_right a w
      | some b =>
        simp only [absorbMin, absorbMax, Option.some.injEq] at hx hy
        exact hx ▸ hy ▸ le_trans (min_le_right a w) (le_max_right b w)

theorem omin_le_omax (a A b B : Option ℚ)
    (haA : a.isSome = A.isSome) (hbB : b.isSome = B.isSome)
    (h₁ : ∀ x y, a = some x → A = some y → x ≤ y)
    (h₂ : ∀ x y, b = some x → B = some y → x ≤ y) :
    ∀ x y, omin a b = some x → omax A B = some y → x ≤ y := by
  intro x y hx hy
  cases a with
  | none =>
    cases A with
    | none => exact h₂ x y hx hy
    | some Av => simp at haA
  | some av =>
    cases A with
    | none => simp at haA
    | some Av =>
      cases b with
      | none =>
        cases B with
        | none =>
          simp only [omin, omax, Option.some.injEq] at hx hy
          exact hx ▸ hy ▸ h₁ av Av rfl rfl
        | some Bv => simp at hbB
      | some bv =>
        cases B with
        | none => simp at hbB
        | some Bv =>
          simp only [omin, omax, Option.some.injEq] at hx hy
          subst hx hy
          exact le_trans (min_le_left av bv)
            (le_trans (h₁ av Av rfl rfl) (le_max_left Av Bv))

theorem absorbMin_isSome_source (m v : Option ℚ)
    (h : (absorbMin m v).isSome) : m.isSome ∨ v.isSome := by
  cases m <;> cases v <;> simp_all [absorbMin]

theorem absorbMax_isSome_source (m v : Option ℚ)
    (h : (absorbMax m v).isSome) : m.isSome ∨ v.isSome := by
  cases m <;> cases v <;> simp_all [absorbMax]

/-- The full invariant carried through the reachability induction: the two
bounds of one axis are present together, `min ≤ max` when present, and a
present bound is traceable to an observation with a present value on that
axis. -/
theorem reached_invariant {acc : WeatherMinMax} {s : List WeatherData}
    (h : ReachedFrom acc s) :
    acc.minTemperature.isSome = acc.maxTemperature.isSome ∧
    acc.minWindSpeed.isSome = acc.maxWindSpeed.isSome ∧
    (∀ x y, acc.minTemperature = some x → acc.maxTemperature = some y → x ≤ y) ∧
    (∀ x y, acc.minWindSpeed = some x → acc.maxWindSpeed = some y → x ≤ y) ∧
    (acc.minTemperature.isSome → ∃ o ∈ s, o.temperatureCelsius.isSome) ∧
    (acc.minWindSpeed.isSome → ∃ o ∈ s, o.windSpeedMs.isSome) := by
  induction h with
  | base => simp [WeatherMinMax.empty]
  | @absorb a s o _ ih =>
    obtain ⟨hpt, hpw, hlt, hlw, hct, hcw⟩ := ih
    refine ⟨absorbMin_isSome_eq_absorbMax _ _ _ hpt,
      absorbMin_isSome_eq_absorbMax _ _ _ hpw,
      absorbMin_le_absorbMax _ _ _ hlt,
      absorbMin_le_absorbMax _ _ _ hlw, ?_, ?_⟩
    · intro hs
      rcases absorbMin_isSome_source _ _ hs with hm | hv
      · obtain ⟨o', ho', hv'⟩ := hct hm
        exact ⟨o', List.mem_cons_of_mem o ho', hv'⟩
      · exact ⟨o, List.mem_cons_self o s, hv⟩
    · intro hs
      rcases absorbMin_isSome_source _ _ hs with hm | hv
      · obtain ⟨o', ho', hv'⟩ := hcw hm
        exact ⟨o', List.mem_cons_of_mem o ho', hv'⟩
      · exact ⟨o, List.mem_cons_self o s, hv⟩
  | @merge a b s t _ _ iha ihb =>
    obtain ⟨hpt₁, hpw₁, hlt₁, hlw₁, hct₁, hcw₁⟩ := iha
    obtain ⟨hpt₂, hpw₂, hlt₂, hlw₂, hct₂, hcw₂⟩ := ihb
    refine ⟨by simp [combine_wmm, omin_isSome, omax_isSome, hpt₁, hpt₂],
      by simp [combine_wmm, omin_isSome, omax_isSome, hpw₁, hpw₂],
      omin_le_omax _ _ _ _ hpt₁ hpt₂ hlt₁ hlt₂,
      omin_le_omax _ _ _ _ hpw₁ hpw₂ hlw₁ hlw₂, ?_, ?_⟩
    · intro hs
      rw [combine_wmm] at hs
      simp only [omin_isSome, Bool.or_eq_true] at hs
      rcases hs with hm | hm
      · obtain ⟨o', ho', hv'⟩ := hct₁ hm
        exact ⟨o', List.mem_append_left t ho', hv'⟩
      · obtain ⟨o', ho', hv'⟩ := hct₂ hm
        exact ⟨o', List.mem_append_right s ho', hv'⟩
    · intro hs
      rw [combine_wmm] at hs
      simp only [omin_isSome, Bool.or_eq_true] at hs
      rcases hs with hm | hm
      · obtain ⟨o', ho', hv'⟩ := hcw₁ hm
        exact ⟨o', List.mem_append_left t ho', hv'⟩
      · obtain ⟨o', ho', hv'⟩ := hcw₂ hm
        exact ⟨o', List.mem_append_right s ho', hv'⟩

/-- C9: every accumulator reachable from the identity by `absorb` and `merge`
operations satisfies `min ≤ max` on each axis whenever both bounds are
present, and each present field is witnessed by an absorbed observation with
a present value on its axis. -/
theorem accumulator_invariant (acc : WeatherMinMax) (s : List WeatherData)
    (h : ReachedFrom acc s) :
    (∀ x y, acc.minTemperature = some x → acc.maxTemperature = some y → x ≤ y) ∧
    (∀ x y, acc.minWindSpeed = some x → acc.maxWindSpeed = some y → x ≤ y) ∧
    ((acc.minTemperature ≠ none ∨ acc.maxTemperature ≠ none) →
      ∃ o ∈ s, o.temperatureCelsius ≠ none) ∧
    ((acc.minWindSpeed ≠ none ∨ acc.maxWindSpeed ≠ none) →
      ∃ o ∈ s, o.windSpeedMs ≠ none) := by
  obtain ⟨hpt, hpw, hlt, hlw, hct, hcw⟩ := reached_invariant h
  refine ⟨hlt, hlw, ?_, ?_⟩
  · intro hne
    have hmin : acc.minTemperature.isSome := by
      rcases hne with hne | hne
      · exact Option.ne_none_iff_isSome.1 hne
      · rw [hpt]; exact Option.ne_none_iff_isSome.1 hne
    obtain ⟨o, ho, hv⟩ := hct hmin
    exact ⟨o, ho, Option.ne_none_iff_isSome.2 hv⟩
  · intro hne
    have hmin : acc.minWindSpeed.isSome := by
      rcases hne with hne | hne
      · exact Option.ne_none_iff_isSome.1 hne
      · rw [hpw]; exact Option.ne_none_iff_isSome.1 hne
    obtain ⟨o, ho, hv⟩ := hcw hmin
    exact ⟨o, ho, Option.ne_none_iff_isSome.2 hv⟩

/-- The invariant theorem applied to the concrete accumulator obtained by
absorbing the first scenario observation into the identity. -/
theorem accumulator_invariant_witness :
    (∀ x y, (reduce_wmm WeatherMinMax.empty wObs1).minTemperature = some x →
      (reduce_wmm WeatherMinMax.empty wObs1).maxTemperature = some y → x ≤ y) ∧
    (∀ x y, (reduce_wmm WeatherMinMax.empty wObs1).minWindSpeed = some x →
      (reduce_wmm WeatherMinMax.empty wObs1).maxWindSpeed = some y → x ≤ y) ∧
    (((reduce_wmm WeatherMinMax.empty wObs1).minTemperature ≠ none ∨
        (reduce_wmm WeatherMinMax.empty wObs1).maxTemperature ≠ none) →
      ∃ o ∈ [wObs1], o.temperatureCelsius ≠ none) ∧
    (((reduce_wmm WeatherMinMax.empty wObs1).minWindSpeed ≠ none ∨
        (reduce_wmm WeatherMinMax.empty wObs1).maxWindSpeed ≠ none) →
      ∃ o ∈ [wObs1], o.windSpeedMs ≠ none) :=
  accumulator_invariant (reduce_wmm WeatherMinMax.empty wObs1) [wObs1]
    (ReachedFrom.absorb ReachedFrom.base)

/-! Null-safe frame property of `absorb` (claim C4). -/

/-- An accumulator with a present min but absent max on the temperature axis;
no such accumulator is reachable, but the claim quantifies over all of them. -/
def accMinOnly : WeatherMinMax :=
  { minTemperature := some 5, maxTemperature := none
    minWindSpeed := none, maxWindSpeed := none }

/-- Counterexample to C4 as stated: absorbing an observation whose present
temperature equals the current min (`5`) into an accumulator whose max is
still `none` changes the opposite bound from `none` to `some 5`. -/
theorem absorb_frame_counterexample :
    wObs1.temperatureCelsius = some 5 ∧
    accMinOnly.minTemperature = some 5 ∧
    accMinOnly.maxTemperature = none ∧
    (reduce_wmm accMinOnly wObs1).maxTemperature ≠ accMinOnly.maxTemperature := by
  decide

/-- C4 amended: a `none` observation value leaves its axis untouched, and
absorbing a present value equal to the current min (resp. max) leaves the
opposite bound unchanged provided that bound is present and the `min ≤ max`
invariant holds (as it does for every reachable accumulator). -/
theorem absorb_frame (a : WeatherMinMax) (obs : WeatherData) :
    (obs.temperatureCelsius = none →
      (reduce_wmm a obs).minTemperature = a.minTemperature ∧
      (reduce_wmm a obs).maxTemperature = a.maxTemperature) ∧
    (obs.windSpeedMs = none →
      (reduce_wmm a obs).minWindSpeed = a.minWindSpeed ∧
      (reduce_wmm a obs).maxWindSpeed = a.maxWindSpeed) ∧
    (∀ v m, obs.temperatureCelsius = some v → a.minTemperature = some v →
      a.maxTemperature = some m → v ≤ m →
      (reduce_wmm a obs).maxTemperature = a.maxTemperature) ∧
    (∀ v m, obs.temperatureCelsius = some v → a.maxTemperature = some v →
      a.minTemperature = some m → m ≤ v →
      (reduce_wmm a obs).minTemperature = a.minTemperature) ∧
    (∀ v m, obs.windSpeedMs = some v → a.minWindSpeed = some v →
      a.maxWindSpeed = some m → v ≤ m →
      (reduce_wmm a obs).maxWindSpeed = a.maxWindSpeed) ∧
    (∀ v m, obs.windSpeedMs = some v → a.maxWindSpeed = some v →
      a.minWindSpeed = some m → m ≤ v →
      (reduce_wmm a obs).minWindSpeed = a.minWindSpeed) := by
  refine ⟨fun h => ?_, fun h => ?_, ?_, ?_, ?_, ?_⟩
  · simp [reduce_wmm, absorbMin, absorbMax, h]
  · simp [reduce_wmm, absorbMin, absorbMax, h]
  · intro v m hv hmin hmax hle
    simp [reduce_wmm, absorbMax, hv, hmax, max_eq_left hle]
  · intro v m hv hmax hmin hle
    simp [reduce_wmm, absorbMin, hv, hmin, min_eq_left hle]
  · intro v m hv hmin hmax hle
    simp [reduce_wmm, absorbMax, hv, hmax, max_eq_left hle]
  · intro v m hv hmax hmin hle
    simp [reduce_wmm, absorbMin, hv, hmin, min_eq_left hle]

/-! The equi-join stage (claims C5 and C10). -/

/-- Membership characterisation of the joined collection: a tuple is produced
precisely for a weather record and a station record of the inputs whose keys
coincide. -/
theorem mem_joined_weather (W : List WeatherData) (S : List StationData)
    (k : String) (w : WeatherData) (s : StationData) :
    (k, (w, s)) ∈ joined_weather W S ↔
      w ∈ W ∧ s ∈ S ∧ stationKey s = weatherKey w ∧ k = weatherKey w := by
  constructor
  · intro h
    rcases List.mem_flatMap.1 h with ⟨w', hw', hmem⟩
    rcases List.mem_map.1 hmem with ⟨s', hs', heq⟩
    obtain ⟨hS, hkey⟩ := List.mem_filter.1 hs'
    simp only [Prod.mk.injEq] at heq
    obtain ⟨hk, hw, hs⟩ := heq
    subst hk hw hs
    exact ⟨hw', hS, of_decide_eq_true hkey, rfl⟩
  · rintro ⟨hw, hs, hkey, rfl⟩
    exact List.mem_flatMap.2
      ⟨w, hw, List.mem_map.2 ⟨s, List.mem_filter.2 ⟨hs, decide_eq_true hkey⟩, rfl⟩⟩

/-- C5: the join stage produces exactly the (weather, station) pairs whose
join keys are equal; a weather record matching no station appears in no
output tuple (dropped silently — the join is a total function), and every
emitted station is a matching member of the station input. -/
theorem equi_join_semantics (W : List WeatherData) (S : List StationData) :
    (∀ (k : String) (w : WeatherData) (s : StationData),
      (k, (w, s)) ∈ joined_weather W S ↔
        w ∈ W ∧ s ∈ S ∧ stationKey s = weatherKey w ∧ k = weatherKey w) ∧
    (∀ w : WeatherData, (∀ s ∈ S, stationKey s ≠ weatherKey w) →
      ∀ p ∈ joined_weather W S, p.2.1 ≠ w) ∧
    (∀ p ∈ joined_weather W S, p.2.2 ∈ S ∧ stationKey p.2.2 = weatherKey p.2.1) := by
  refine ⟨mem_joined_weather W S, ?_, ?_⟩
  · rintro w hnone ⟨k, w', s'⟩ hp rfl
    obtain ⟨-, hs, hkey, -⟩ := (mem_joined_weather W S k w' s').1 hp
    exact hnone s' hs hkey
  · rintro ⟨k, w', s'⟩ hp
    obtain ⟨-, hs, hkey, -⟩ := (mem_joined_weather W S k w' s').1 hp
    exact ⟨hs, hkey⟩

/-- A weather record whose components differ from the station's but whose
concatenated key `"ABC"` coincides with it. -/
def wConcat : WeatherData :=
  { usaf := "AB", wban := "C", date := "20230101"
    temperatureCelsius := none, windSpeedMs := none }

/-- A station record with components `("A", "BC")`, concatenating to the same
key `"ABC"` as `wConcat`. -/
def stConcat : StationData :=
  { usaf := "A", wban := "BC", country := "US" }

/-- C10: the join key of both streams is the concatenation `usaf + wban`, so
records pair exactly when the concatenations are equal — and records with
distinct component pairs, such as `("AB","C")` and `("A","BC")`, do join. -/
theorem join_key_is_concatenation :
    (∀ (W : List WeatherData) (S : List StationData) (k : String)
      (w : WeatherData) (s : StationData),
      (k, (w, s)) ∈ joined_weather W S ↔
        w ∈ W ∧ s ∈ S ∧ s.usaf ++ s.wban = w.usaf ++ w.wban ∧
          k = w.usaf ++ w.wban) ∧
    ((wConcat.usaf, wConcat.wban) ≠ (stConcat.usaf, stConcat.wban) ∧
      weatherKey wConcat = stationKey stConcat ∧
      ("ABC", (wConcat, stConcat)) ∈ joined_weather [wConcat] [stConcat]) := by
  refine ⟨fun W S k w s => mem_joined_weather W S k w s, ?_, ?_, ?_⟩
  · decide
  · decide
  · decide

/-! The group-key extractor (claim C6). -/

/-- A weather record whose date field has fewer than four characters. -/
def wDateShort : WeatherData :=
  { usaf := "USAF001", wban := "WBAN01", date := "20"
    temperatureCelsius := none, windSpeedMs := none }

/-- Counterexample to C6 as stated: on a 2-character date the extractor does
not fail — Python's slice `date[0:4]` silently yields the short string, so
the group key comes back with the 2-character year `"20"`. -/
theorem group_key_short_date_counterexample :
    wDateShort.date.length < 4 ∧
    extract_country_year_weather ("USAF001WBAN01", (wDateShort, stUS)) =
      (("US", "20"), wDateShort) := by
  decide

/-- C6 amended: the extractor is total — it never raises; it returns the
weather record with group key `(station.country, date[0:4])`, where the year
component has `min 4 (length date)` characters: the full 4-character prefix
when the date is long enough, the whole short date otherwise. -/
theorem group_key_extractor (k : String) (w : WeatherData) (s : StationData) :
    (extract_country_year_weather (k, (w, s))).2 = w ∧
    (extract_country_year_weather (k, (w, s))).1.1 = s.country ∧
    (extract_country_year_weather (k, (w, s))).1.2 = pySlice w.date 4 ∧
    ((extract_country_year_weather (k, (w, s))).1.2).length =
      min 4 w.date.length := by
  refine ⟨rfl, rfl, rfl, ?_⟩
  exact List.length_take 4 w.date.data

/-! Output-path validation (claim C7). -/

/-- Counterexample to C7 as stated: `create_context` sets
`spark.hadoop.validateOutputSpecs` to `"false"`, so with a pre-existing
output location the save still reports success — the pre-existing output is
silently overwritten instead of failing fast. -/
theorem output_exists_counterexample :
    validate_output_enabled driver_conf = false ∧
    save_as_text_file driver_conf true = SaveOutcome.written := by
  decide

/-- C7 amended: because the driver disables output-spec validation, the save
succeeds whether or not the output location pre-exists; no existence
violation is ever surfaced and pre-existing output is overwritten. -/
theorem output_exists_overwritten (outputExists : Bool) :
    save_as_text_file driver_conf outputExists = SaveOutcome.written := by
  cases outputExists <;> decide

/-! The end-to-end scenario (claim C8). -/

/-- Counterexample to C8 as stated: the pipeline's one output line renders
the extrema with Python's `%f` — six digits after the decimal point — so the
line is not the claimed `"US,2023,-2.0,5.0,3.0,3.0"`. -/
theorem scenario_line_counterexample :
    run_pipeline [stUS] [wObs1, wObs2] =
      ["US,2023,-2.000000,5.000000,3.000000,3.000000"] ∧
    "US,2023,-2.000000,5.000000,3.000000,3.000000" ≠
      "US,2023,-2.0,5.0,3.0,3.0" := by
  decide

/-- C8 amended: the scenario produces group key `(US, 2023)` with accumulator
`{min = -2, max = 5, minWind = 3, maxWind = 3}`, and the formatted line is
`"US,2023,-2.000000,5.000000,3.000000,3.000000"` (`%f` renders six decimal
places); a `none` extremum is rendered as `0.000000`. -/
theorem scenario_end_to_end :
    aggregate_by_key ((joined_weather [wObs1, wObs2] [stUS]).map
        extract_country_year_weather) =
      [(("US", "2023"),
        { minTemperature := some (-2), maxTemperature := some 5
          minWindSpeed := some 3, maxWindSpeed := some 3 })] ∧
    run_pipeline [stUS] [wObs1, wObs2] =
      ["US,2023,-2.000000,5.000000,3.000000,3.000000"] ∧
    format_result (("US", "2023"), WeatherMinMax.empty) =
      "US,2023,0.000000,0.000000,0.000000,0.000000" := by
  refine ⟨by decide, by decide, by decide⟩

end SparkWeather
